import Mathlib

/-!
Verification of the Lokeshen native SQLite/SpatiaLite bridge and data-access
layer.  The definitions below are shallow embeddings of the Kotlin module
`expo.modules.spatialite.ExpoSpatialiteModule`, the older
`expo.modules.spatialitemodule.ExpoSpatialiteModule`, the TypeScript path
helpers (`src/server/query-wards.ts`, `src/modules/expo-spatialite/src/index.ts`),
the Drizzle adapter (`src/modules/expo-spatialite/src/DrizzleAdapter.ts`) and
the `BaseModel` query builder.  The underlying SQLite engine is treated as an
external collaborator and modelled abstractly; Kotlin/TypeScript strings are
Lean `String`s, with character-list implementations of the text operations the
code uses so that all definitions evaluate inside the kernel.
-/

namespace Lokeshen

/-! ## Character-list string helpers

Executable counterparts of the Kotlin/JS string operations used by the
sources (`trim`, `uppercase`, `lowercase`, `startsWith`, `contains`).
ASCII case mapping suffices for the SQL keywords the classifier inspects. -/

def charToUpper (c : Char) : Char :=
  if 97 ≤ c.toNat ∧ c.toNat ≤ 122 then Char.ofNat (c.toNat - 32) else c

def charToLower (c : Char) : Char :=
  if 65 ≤ c.toNat ∧ c.toNat ≤ 90 then Char.ofNat (c.toNat + 32) else c

def strToUpper (s : String) : String := ⟨s.data.map charToUpper⟩

def strToLower (s : String) : String := ⟨s.data.map charToLower⟩

def strTrim (s : String) : String :=
  ⟨((s.data.dropWhile Char.isWhitespace).reverse.dropWhile Char.isWhitespace).reverse⟩

def strStartsWith (s p : String) : Bool := p.data.isPrefixOf s.data

def strContainsChar (s : String) (c : Char) : Bool := s.data.contains c

/-! ## Statement classification (`getStatementType`)

From `ExpoSpatialiteModule.kt`: the statement text alone is trimmed,
upper-cased and matched on its leading keyword. -/

inductive StatementType where
  | query      -- SELECT, WITH, PRAGMA queries - returns data
  | modify     -- INSERT, UPDATE, DELETE - modifies data
  | pragmaSet  -- PRAGMA setters - no return data
  | other      -- CREATE, DROP, etc.
deriving DecidableEq, Repr

def getStatementType (sql : String) : StatementType :=
  let trimmedSql := strToUpper (strTrim sql)
  if strStartsWith trimmedSql "SELECT" || strStartsWith trimmedSql "WITH" then
    .query
  else if strStartsWith trimmedSql "INSERT" || strStartsWith trimmedSql "UPDATE"
      || strStartsWith trimmedSql "DELETE" then
    .modify
  else if strStartsWith trimmedSql "PRAGMA" then
    if strContainsChar trimmedSql '=' then .pragmaSet else .query
  else .other

/-! ## Placeholder detection (`hasPlaceholders`)

The Kotlin helper removes single-quoted strings, double-quoted strings,
line comments (`--` to end of line) and block comments before looking for
a `?` placeholder.  Each regex pass is reproduced as a character scan. -/

def stripQuotedGo (q : Char) : Nat → List Char → List Char
  | _, [] => []
  | 0, l => l
  | fuel + 1, c :: cs =>
    if c = q ∧ cs.contains q then
      stripQuotedGo q fuel ((cs.dropWhile (· ≠ q)).tail)
    else c :: stripQuotedGo q fuel cs

def stripQuoted (q : Char) (l : List Char) : List Char := stripQuotedGo q l.length l

def stripLineCommentsGo : Nat → List Char → List Char
  | _, [] => []
  | 0, l => l
  | _ + 1, [a] => [a]
  | fuel + 1, a :: b :: cs =>
    if a = '-' ∧ b = '-' then stripLineCommentsGo fuel (cs.dropWhile (· ≠ '\n'))
    else a :: stripLineCommentsGo fuel (b :: cs)

def stripLineComments (l : List Char) : List Char := stripLineCommentsGo l.length l

def afterBlockEnd : List Char → List Char
  | [] => []
  | [_] => []
  | a :: b :: cs => if a = '*' ∧ b = '/' then cs else afterBlockEnd (b :: cs)

def hasBlockEnd : List Char → Bool
  | [] => false
  | [_] => false
  | a :: b :: cs => if a = '*' ∧ b = '/' then true else hasBlockEnd (b :: cs)

def stripBlockCommentsGo : Nat → List Char → List Char
  | _, [] => []
  | 0, l => l
  | _ + 1, [a] => [a]
  | fuel + 1, a :: b :: cs =>
    if a = '/' ∧ b = '*' ∧ hasBlockEnd cs then
      stripBlockCommentsGo fuel (afterBlockEnd cs)
    else a :: stripBlockCommentsGo fuel (b :: cs)

def stripBlockComments (l : List Char) : List Char := stripBlockCommentsGo l.length l

def hasPlaceholders (sql : String) : Bool :=
  let cleanedSql :=
    stripBlockComments (stripLineComments (stripQuoted '"' (stripQuoted '\'' sql.data)))
  cleanedSql.contains '?'

/-! ## Parameter marshaling (`convertParamsToArray`)

`SpatialiteParam = string | number | boolean | null` on the JS side; the
Kotlin side maps `null` to a null binding and everything else to its string
form (`Boolean` to "1"/"0", numbers via `toString`).  Integers stand in for
the JS number type. -/

inductive SpatialiteParam where
  | nullP
  | boolP (b : Bool)
  | numP (i : Int)
  | textP (s : String)
deriving DecidableEq, Repr

def paramToString : SpatialiteParam → Option String
  | .nullP => none
  | .boolP b => some (if b then "1" else "0")
  | .numP i => some (toString i)
  | .textP s => some s

def convertParamsToArray (params : List SpatialiteParam) : List (Option String) :=
  params.map paramToString

/-! ## Cursor marshaling (`cursorToList`)

A result cell carries SQLite's runtime type tag; the Kotlin loop dispatches
on `cursor.getType(i)` and builds one mutable map per row, keyed by
`cursor.getColumnName(i)`.  Rationals stand in for the `FIELD_TYPE_FLOAT`
doubles.  `putAssoc` reproduces `MutableMap.put` on an insertion-ordered
association list (overwrite keeps the original position). -/

inductive CellVal where
  | nullV
  | intV (i : Int)
  | floatV (q : ℚ)
  | textV (s : String)
  | blobV (b : List UInt8)
deriving DecidableEq, Repr

def putAssoc (m : List (String × CellVal)) (k : String) (v : CellVal) :
    List (String × CellVal) :=
  if m.any (fun p => p.1 = k) then
    m.map (fun p => if p.1 = k then (k, v) else p)
  else m ++ [(k, v)]

def rowToMap (cols : List (String × CellVal)) : List (String × CellVal) :=
  cols.foldl (fun m kv => putAssoc m kv.1 kv.2) []

def cursorToList (cursor : List (List (String × CellVal))) :
    List (List (String × CellVal)) :=
  cursor.map rowToMap

/-! The older `expo-spatialite-module` variant builds its row maps with
`stmt.column_name(i).toLowerCase()` as the key. -/

def rowToMapLower (cols : List (String × CellVal)) : List (String × CellVal) :=
  cols.foldl (fun m kv => putAssoc m (strToLower kv.1) kv.2) []

def executeQueryLower (rows : List (List (String × CellVal))) :
    List (List (String × CellVal)) :=
  rows.map rowToMapLower

/-! ## The native adapter (`executeQuery` / `executeStatement`)

The SQLite/SpatiaLite engine is an external collaborator; it is modelled as
an abstract state `σ` with total `execSql` / `rawQuery` / `changes`
operations (engine-side SQL failures are outside the routing claims).
`database` is the module's nullable connection field.  The errors are the
distinct exceptions the Kotlin module throws before touching the engine. -/

structure Engine (σ : Type) where
  execSql : σ → String → Option (List (Option String)) → σ
  changes : σ → Nat
  rawQuery : σ → String → Option (List (Option String)) → List (List (String × CellVal))

inductive AdapterError where
  | noActiveConnection        -- "Database not initialized. Call initDatabase first."
  | modifyViaExecuteQuery     -- "Use executeStatement for INSERT, UPDATE, DELETE statements"
  | queryViaExecuteStatement  -- "Use executeQuery for statements that return data"
deriving DecidableEq, Repr

structure QueryResult where
  success : Bool
  rowCount : Nat
  data : List (List (String × CellVal))
deriving DecidableEq, Repr

/-- `params != null && params.isNotEmpty() && hasPlaceholders(sql)` -/
def bindsParams (sql : String) (params : Option (List SpatialiteParam)) : Bool :=
  match params with
  | some ps => !ps.isEmpty && hasPlaceholders sql
  | none => false

def executeQuery {σ : Type} (eng : Engine σ) (database : Option σ) (query : String)
    (params : Option (List SpatialiteParam)) : Except AdapterError QueryResult :=
  match database with
  | none => .error .noActiveConnection
  | some db =>
    if getStatementType query = .modify then .error .modifyViaExecuteQuery
    else
      let cursor :=
        if bindsParams query params then
          eng.rawQuery db query (some (convertParamsToArray (params.getD [])))
        else
          eng.rawQuery db query none
      let results := cursorToList cursor
      .ok { success := true, rowCount := results.length, data := results }

/-- Trace of the engine-level operations `executeStatement` performs, in
order: `beginTransaction`, `execSQL`, the optional `SELECT changes()`
introspection, `setTransactionSuccessful`, `endTransaction`. -/
inductive EngineOp where
  | beginTx
  | execSql (sql : String) (args : Option (List (Option String)))
  | queryChanges
  | setTxSuccessful
  | endTx
deriving DecidableEq, Repr

structure StatementResult (σ : Type) where
  state : σ
  rowsAffected : Int
  trace : List EngineOp

def executeStatement {σ : Type} (eng : Engine σ) (database : Option σ) (statement : String)
    (params : Option (List SpatialiteParam)) : Except AdapterError (StatementResult σ) :=
  match database with
  | none => .error .noActiveConnection
  | some db =>
    if getStatementType statement = .query then .error .queryViaExecuteStatement
    else if bindsParams statement params then
      let args := convertParamsToArray (params.getD [])
      let db1 := eng.execSql db statement (some args)
      if getStatementType statement = .modify then
        .ok { state := db1, rowsAffected := (eng.changes db1 : Int),
              trace := [.beginTx, .execSql statement (some args), .queryChanges,
                        .setTxSuccessful, .endTx] }
      else
        .ok { state := db1, rowsAffected := 0,
              trace := [.beginTx, .execSql statement (some args),
                        .setTxSuccessful, .endTx] }
    else
      let db1 := eng.execSql db statement none
      let rowsAffected : Int := if getStatementType statement = .modify then -1 else 0
      .ok { state := db1, rowsAffected := rowsAffected,
            trace := [.beginTx, .execSql statement none, .setTxSuccessful, .endTx] }

/-! ## Path resolution (`createDatabasePath`)

Two implementations exist.  `src/server/query-wards.ts` strips every
trailing slash from the resolved directory and every leading slash from the
name; `src/modules/expo-spatialite/src/index.ts` concatenates the documents
directory, the directory hint and the name directly.  JS `String.replace`
with a string pattern replaces only the first occurrence. -/

def replaceFirstGo : Nat → List Char → List Char → List Char → List Char
  | _, [], _, _ => []
  | 0, l, _, _ => l
  | fuel + 1, c :: cs, pat, rep =>
    if pat.isPrefixOf (c :: cs) then rep ++ (c :: cs).drop pat.length
    else c :: replaceFirstGo fuel cs pat rep

/-- JS `s.replace(pat, rep)` for a plain-string pattern: first occurrence only. -/
def replaceFirst (s pat rep : String) : String :=
  ⟨replaceFirstGo s.data.length s.data pat.data rep.data⟩

/-- `path.replace(/\/*$/, "")` in query-wards.ts: drop all trailing slashes. -/
def removeTrailingSlash (path : String) : String :=
  ⟨(path.data.reverse.dropWhile (· = '/')).reverse⟩

/-- `path.replace(/^\/+/, "")` in query-wards.ts: drop all leading slashes. -/
def removeLeadingSlash (path : String) : String :=
  ⟨path.data.dropWhile (· = '/')⟩

/-- `resolveDbDirectory` in query-wards.ts (`directory ?? defaultDirectory`;
the both-null error path is outside the model since the default is a string). -/
def resolveDbDirectory (directory : Option String) (defaultDirectory : String) : String :=
  directory.getD defaultDirectory

/-- `createDatabasePath` from `src/server/query-wards.ts`. -/
def createDatabasePathQW (databaseName : String) (directory : Option String)
    (defaultDatabaseDirectory : String) : String :=
  if databaseName = ":memory:" then databaseName
  else
    removeTrailingSlash (resolveDbDirectory directory defaultDatabaseDirectory)
      ++ "/" ++ removeLeadingSlash databaseName

/-- `baseDir.replace(/\/$/, "")`: drop at most one trailing slash. -/
def removeOneTrailingSlash (s : String) : String :=
  match s.data.getLast? with
  | some c => if c = '/' then ⟨s.data.dropLast⟩ else s
  | none => s

/-- `createDatabasePath` from `src/modules/expo-spatialite/src/index.ts`.
`documentsDirectory` is `FileSystem.documentDirectory` (the guard throws on
a falsy value). -/
def createDatabasePathIndex (documentsDirectory : String) (databaseName : String)
    (directory : Option String) : Except String String :=
  if documentsDirectory = "" then .error "Document directory is not available"
  else
    match directory with
    | some d =>
      if strStartsWith d "/" || strStartsWith d "file://" then
        let baseDir := replaceFirst d "file://" ""
        .ok (replaceFirst (removeOneTrailingSlash baseDir ++ "/" ++ databaseName)
              "file://" "")
      else
        .ok (replaceFirst (documentsDirectory ++ d ++ "/" ++ databaseName) "file://" "")
    | none =>
      .ok (replaceFirst (documentsDirectory ++ "Spatialite/" ++ databaseName) "file://" "")

/-! ## Asset import (`importAssetDatabaseAsync`)

The filesystem is an association list from paths to byte contents; the app
bundle's assets are a second read-only map.  Directory creation always
succeeds in the model (its failure path is `DatabaseOpenError`, not at
issue here). -/

abbrev FileBytes := List UInt8

structure FsState where
  files : List (String × FileBytes)
  assets : List (String × FileBytes)
deriving DecidableEq, Repr

def putFile (files : List (String × FileBytes)) (k : String) (v : FileBytes) :
    List (String × FileBytes) :=
  if files.any (fun p => p.1 = k) then
    files.map (fun p => if p.1 = k then (k, v) else p)
  else files ++ [(k, v)]

def lookupFile (files : List (String × FileBytes)) (k : String) : Option FileBytes :=
  match files.find? (fun p => p.1 = k) with
  | some p => some p.2
  | none => none

/-- Source resolution: absolute paths pass through, otherwise the app-bundle
`assets/` namespace is used. -/
def resolveSourcePath (assetDatabasePath : String) : String :=
  if strStartsWith assetDatabasePath "/" then assetDatabasePath
  else "assets/" ++ assetDatabasePath

/-- Destination resolution: absolute paths pass through, relative names go
under `filesDir/Spatialite/`. -/
def resolveDbFilePath (filesDir databasePath : String) : String :=
  if strStartsWith databasePath "/" then databasePath
  else filesDir ++ "/Spatialite/" ++ databasePath

structure ImportResult where
  success : Bool
  message : String
deriving DecidableEq, Repr

def importAssetDatabaseAsync (fs : FsState) (filesDir databasePath assetDatabasePath : String)
    (forceOverwrite : Bool) : Except String (FsState × ImportResult) :=
  let sourcePath := resolveSourcePath assetDatabasePath
  let dest := resolveDbFilePath filesDir databasePath
  if (lookupFile fs.files dest).isSome ∧ ¬forceOverwrite then
    .ok (fs, { success := true, message := "Database already exists, skipping import" })
  else
    match lookupFile fs.files sourcePath with
    | some bytes =>
      .ok ({ fs with files := putFile fs.files dest bytes },
           { success := true, message := "Database imported successfully" })
    | none =>
      match lookupFile fs.assets sourcePath with
      | some bytes =>
        .ok ({ fs with files := putFile fs.files dest bytes },
             { success := true, message := "Database imported successfully" })
      | none => .error "Failed to copy database file"

/-! ## Spatial-metadata setup at open time

`SpatialFileState` abstracts one database file: whether the file exists and
whether the spatial metadata catalog (`spatial_ref_sys`) is present in it.
`initDatabaseMeta` is the metadata phase of the newer module's
`initDatabase` (the locale-recovery path is not taken): it initializes the
metadata only for a newly created file, and swallows any initialization
error.  `connectSpatialInit` is the older module's `connect` probe: it
prepares `SELECT count(1) FROM spatial_ref_sys LIMIT 1` and runs
`InitSpatialMetaData(1)` only when that fails with "no such table". -/

structure SpatialFileState where
  fileExists : Bool
  hasCatalog : Bool
deriving DecidableEq, Repr

structure InitMetaOutcome where
  state : SpatialFileState
  success : Bool
  initRan : Bool
deriving DecidableEq, Repr

def initDatabaseMeta (s : SpatialFileState) : InitMetaOutcome :=
  let isNewDatabase := !s.fileExists
  -- CREATE_IF_NECESSARY: opening materializes the file
  let s1 : SpatialFileState := { s with fileExists := true }
  if isNewDatabase then
    -- "SELECT InitSpatialMetaData();" wrapped in try/catch: failures are logged only
    { state := { s1 with hasCatalog := true }, success := true, initRan := true }
  else
    { state := s1, success := true, initRan := false }

/-- Modelled from the spec: the spec says `initDatabase` "triggers
spatial-metadata initialization exactly once (idempotent: checks for
existence of the metadata catalog table before initializing...)"; this
definition follows those words, initializing exactly when the catalog table
is absent, for comparison with `initDatabaseMeta` above. -/
def initDatabaseMetaSpec (s : SpatialFileState) : InitMetaOutcome :=
  let s1 : SpatialFileState := { s with fileExists := true }
  if !s.hasCatalog then
    { state := { s1 with hasCatalog := true }, success := true, initRan := true }
  else
    { state := s1, success := true, initRan := false }

def connectSpatialInit (s : SpatialFileState) : InitMetaOutcome :=
  let s1 : SpatialFileState := { s with fileExists := true }
  if s1.hasCatalog then
    -- the probe query steps to a row: already initialized, nothing to do
    { state := s1, success := true, initRan := false }
  else
    -- "no such table: spatial_ref_sys" -> exec InitSpatialMetaData(1)
    { state := { s1 with hasCatalog := true }, success := true, initRan := true }

/-! ## Drizzle adapter transaction (`ExpoSpatialiteDrizzle.transaction`)

`transaction(fn)` issues `BEGIN` through the native `executeStatement`
(outside its try block), runs the callback, then `COMMIT` on resolution or
`ROLLBACK` plus a rethrow on a thrown error.  Crucially, the native
`executeStatement` it calls wraps *every* statement — `BEGIN` included —
in its own `db.beginTransaction()` / `db.endTransaction()` bracket (the
sequence traced as `[beginTx, execSql, setTxSuccessful, endTx]` above), so
the engine-level transaction-nesting rule matters here.  `TxConn` refines
the engine connection with SQLite's transaction state: current data, the
in-transaction flag, and the data snapshot the open transaction would roll
back to.  `execSqlTx` is `execSQL` over this state, enforcing SQLite's
rule that `BEGIN` / `COMMIT` / `ROLLBACK` fail when issued in the wrong
transaction state; data statements mutate via the abstract `applyData`.
The adapter always enters its bracket from autocommit (each call closes
its bracket before returning), so ref-counted nesting of
`beginTransaction` itself does not arise.  The callback is the sequence of
data mutations it performs followed by its resolution or thrown error. -/

structure TxConn (σ : Type) where
  data : σ
  inTransaction : Bool
  savepoint : Option σ
deriving DecidableEq, Repr

/-- Engine-level `execSQL` with SQLite transaction-control semantics. -/
def execSqlTx {σ : Type} (applyData : σ → String → σ) (c : TxConn σ) (sql : String) :
    Except String (TxConn σ) :=
  if sql = "BEGIN" then
    if c.inTransaction then .error "cannot start a transaction within a transaction"
    else .ok { c with inTransaction := true, savepoint := some c.data }
  else if sql = "COMMIT" then
    if c.inTransaction then .ok { c with inTransaction := false, savepoint := none }
    else .error "cannot commit - no transaction is active"
  else if sql = "ROLLBACK" then
    if c.inTransaction then
      .ok { c with data := c.savepoint.getD c.data, inTransaction := false,
                   savepoint := none }
    else .error "cannot rollback - no transaction is active"
  else .ok { c with data := applyData c.data sql }

/-- `db.beginTransaction()`: opens the engine transaction (no-op under an
already-open one, where Android only bumps its reference count). -/
def beginTransactionTx {σ : Type} (c : TxConn σ) : TxConn σ :=
  if c.inTransaction then c
  else { c with inTransaction := true, savepoint := some c.data }

/-- `db.endTransaction()`: commits when `setTransactionSuccessful` was
called, otherwise rolls back to the snapshot taken at `beginTransaction`. -/
def endTransactionTx {σ : Type} (c : TxConn σ) (successful : Bool) : TxConn σ :=
  if successful then { c with inTransaction := false, savepoint := none }
  else { c with data := c.savepoint.getD c.data, inTransaction := false,
                savepoint := none }

/-- The native `executeStatement` bracket for a transaction-control
statement (no placeholders, classified `other`, so the parameter and
`changes()` paths of `executeStatement` above are not taken):
`beginTransaction(); try { execSQL(stmt); setTransactionSuccessful() }
finally { endTransaction() }`, rethrowing an engine error (second
component) after the `finally` rollback. -/
def executeStatementTx {σ : Type} (applyData : σ → String → σ) (c : TxConn σ)
    (stmt : String) : TxConn σ × Option String :=
  let c1 := beginTransactionTx c
  match execSqlTx applyData c1 stmt with
  | .ok c2 => (endTransactionTx c2 true, none)
  | .error msg => (endTransactionTx c1 false, some msg)

/-- An error escaping `transaction(fn)`: either an engine error thrown by
one of its own `executeStatement` calls, or the callback's thrown error. -/
inductive TxError (E : Type) where
  | engineError (msg : String)
  | callbackError (e : E)
deriving DecidableEq, Repr

structure TxCallback (σ E T : Type) where
  steps : List (σ → σ)
  outcome : Except E T

/-- `ExpoSpatialiteDrizzle.transaction(fn)`: `BEGIN` outside the try block
(its error propagates directly, before the callback); on callback
resolution `COMMIT` and return; on a throw — from the callback or from
`COMMIT` itself — the catch issues `ROLLBACK` and rethrows (a `ROLLBACK`
failure replaces the original error, as in JS). -/
def transaction {σ E T : Type} (applyData : σ → String → σ) (cb : TxCallback σ E T)
    (c : TxConn σ) : TxConn σ × Except (TxError E) T :=
  match executeStatementTx applyData c "BEGIN" with
  | (c1, some msg) => (c1, .error (.engineError msg))
  | (c1, none) =>
    let c2 := { c1 with data := cb.steps.foldl (fun d f => f d) c1.data }
    match cb.outcome with
    | .ok v =>
      match executeStatementTx applyData c2 "COMMIT" with
      | (c3, none) => (c3, .ok v)
      | (c3, some msg) =>
        match executeStatementTx applyData c3 "ROLLBACK" with
        | (c4, none) => (c4, .error (.engineError msg))
        | (c4, some msg2) => (c4, .error (.engineError msg2))
    | .error e =>
      match executeStatementTx applyData c2 "ROLLBACK" with
      | (c3, none) => (c3, .error (.callbackError e))
      | (c3, some msg2) => (c3, .error (.engineError msg2))

/-! ## Cursor pagination (`BaseModel.findPaginated`)

The query builder emits `SELECT * FROM t [WHERE field > ?] ORDER BY field
ASC LIMIT ?`; the `WHERE` clause is guarded by JS truthiness of the cursor
argument (`if (cursor)`), so an `undefined` or empty-string cursor omits
it.  The engine's BINARY collation on TEXT is byte-lexicographic, which
UTF-8 makes order-isomorphic to code-point-lexicographic comparison
(`lexLt`). -/

def lexLt : List Char → List Char → Bool
  | [], [] => false
  | [], _ :: _ => true
  | _ :: _, [] => false
  | a :: as, b :: bs => if a < b then true else if b < a then false else lexLt as bs

def strLt (a b : String) : Bool := lexLt a.data b.data

def strLe (a b : String) : Bool := !strLt b a

def cursorTruthy : Option String → Bool
  | none => false
  | some c => c != ""

def findPaginatedSql (tableName cursorField : String) (cursor : Option String)
    (limit : Int) : String × List SpatialiteParam :=
  let query := "SELECT * FROM " ++ tableName
  let qp :=
    if cursorTruthy cursor then
      (query ++ " WHERE " ++ cursorField ++ " > ?",
       [SpatialiteParam.textP (cursor.getD "")])
    else (query, ([] : List SpatialiteParam))
  (qp.1 ++ " ORDER BY " ++ cursorField ++ " ASC LIMIT ?",
   qp.2 ++ [SpatialiteParam.numP limit])

/-- One row of the paginated table: the cursor-field value and the rest of
the row (abstracted to an identifier). -/
structure PRow where
  key : String
  rowid : Nat
deriving DecidableEq, Repr

def rowLe (a b : PRow) : Prop := strLe a.key b.key = true

instance : DecidableRel rowLe := fun a b => by
  unfold rowLe; infer_instance

/-- Denotation of the SQL emitted by `findPaginatedSql` on a fixed snapshot:
keep the rows the `WHERE` clause admits (all of them when the truthiness
guard dropped it), order ascending by the cursor field, truncate at the
limit. -/
def pageAt (rows : List PRow) (limit : Nat) (cursor : Option String) : List PRow :=
  let filtered :=
    if cursorTruthy cursor then rows.filter (fun r => strLt (cursor.getD "") r.key)
    else rows
  (filtered.insertionSort rowLe).take limit

/-- The caller's advancing rule: the next cursor is the last returned row's
cursor-field value (unchanged when the page is empty). -/
def advanceCursor (rows : List PRow) (limit : Nat) (c : Option String) : Option String :=
  match (pageAt rows limit c).getLast? with
  | some r => some r.key
  | none => c

/-- Cursor of the n-th consecutive call, starting with no cursor. -/
def cursorSeq (rows : List PRow) (limit : Nat) : Nat → Option String
  | 0 => none
  | n + 1 => advanceCursor rows limit (cursorSeq rows limit n)

/-! ### Order facts for the BINARY-collation model -/

theorem lexLt_irrefl : ∀ l : List Char, lexLt l l = false
  | [] => rfl
  | a :: as => by
    simp only [lexLt, lt_irrefl, if_false]
    exact lexLt_irrefl as

theorem lexLt_cons_iff {a b : Char} {as bs : List Char} :
    lexLt (a :: as) (b :: bs) = true ↔ a < b ∨ (a = b ∧ lexLt as bs = true) := by
  simp only [lexLt]
  rcases lt_trichotomy a b with h | h | h
  · rw [if_pos h]
    simp [h]
  · subst h
    rw [if_neg (lt_irrefl a), if_neg (lt_irrefl a)]
    simp
  · rw [if_neg (asymm h), if_pos h]
    simp [asymm h, (ne_of_gt h : a ≠ b)]

theorem lexLt_trans : ∀ {a b c : List Char},
    lexLt a b = true → lexLt b c = true → lexLt a c = true
  | [], _ :: _, _ :: _, _, _ => rfl
  | [], [], _, h, _ => by simp [lexLt] at h
  | [], _ :: _, [], _, h => by simp [lexLt] at h
  | _ :: _, [], _, h, _ => by simp [lexLt] at h
  | _ :: _, _ :: _, [], _, h => by simp [lexLt] at h
  | a :: as, b :: bs, c :: cs, h1, h2 => by
    rw [lexLt_cons_iff] at h1 h2 ⊢
    rcases h1 with h1 | ⟨rfl, h1'⟩
    · rcases h2 with h2 | ⟨rfl, _⟩
      · exact Or.inl (lt_trans h1 h2)
      · exact Or.inl h1
    · rcases h2 with h2 | ⟨rfl, h2'⟩
      · exact Or.inl h2
      · exact Or.inr ⟨rfl, lexLt_trans h1' h2'⟩

theorem lexLt_eq_of_not_lt : ∀ {a b : List Char},
    lexLt a b = false → lexLt b a = false → a = b
  | [], [], _, _ => rfl
  | [], _ :: _, h, _ => by simp [lexLt] at h
  | _ :: _, [], _, h => by simp [lexLt] at h
  | a :: as, b :: bs, h1, h2 => by
    simp only [lexLt] at h1 h2
    rcases lt_trichotomy a b with hab | hab | hab
    · rw [if_pos hab] at h1
      exact absurd h1 (by simp)
    · subst hab
      rw [if_neg (lt_irrefl a), if_neg (lt_irrefl a)] at h1 h2
      rw [lexLt_eq_of_not_lt h1 h2]
    · rw [if_pos hab] at h2
      exact absurd h2 (by simp)

theorem strLt_irrefl (a : String) : strLt a a = false := lexLt_irrefl a.data

theorem strLt_trans {a b c : String} (h1 : strLt a b = true) (h2 : strLt b c = true) :
    strLt a c = true := lexLt_trans h1 h2

theorem strEq_of_not_lt {a b : String} (h1 : strLt a b = false) (h2 : strLt b a = false) :
    a = b := by
  have h := lexLt_eq_of_not_lt h1 h2
  calc a = ⟨a.data⟩ := rfl
    _ = ⟨b.data⟩ := by rw [h]
    _ = b := rfl

theorem strLe_refl (a : String) : strLe a a = true := by
  simp [strLe, strLt_irrefl]

theorem strLe_trans {a b c : String} (h1 : strLe a b = true) (h2 : strLe b c = true) :
    strLe a c = true := by
  simp only [strLe, Bool.not_eq_true'] at h1 h2 ⊢
  by_contra hca
  rw [Bool.not_eq_false] at hca
  rcases hbc : strLt b c with _ | _
  · have hb : b = c := strEq_of_not_lt hbc h2
    subst hb
    rw [hca] at h1
    exact absurd h1 (by simp)
  · have := strLt_trans hbc hca
    rw [this] at h1
    exact absurd h1 (by simp)

theorem strLe_total (a b : String) : strLe a b = true ∨ strLe b a = true := by
  simp only [strLe, Bool.not_eq_true']
  rcases h : strLt b a with _ | _
  · exact Or.inl rfl
  · rcases h2 : strLt a b with _ | _
    · exact Or.inr rfl
    · have := strLt_trans h h2
      rw [strLt_irrefl] at this
      exact absurd this (by simp)

theorem strLe_of_lt {a b : String} (h : strLt a b = true) : strLe a b = true := by
  simp only [strLe, Bool.not_eq_true']
  rcases h2 : strLt b a with _ | _
  · rfl
  · have := strLt_trans h h2
    rw [strLt_irrefl] at this
    exact absurd this (by simp)

theorem strLt_of_lt_of_le {a b c : String} (h1 : strLt a b = true) (h2 : strLe b c = true) :
    strLt a c = true := by
  simp only [strLe, Bool.not_eq_true'] at h2
  rcases hac : strLt a c with _ | _
  · rcases hca : strLt c a with _ | _
    · have : a = c := strEq_of_not_lt hac hca
      subst this
      rw [h1] at h2
      exact absurd h2 (by simp)
    · have := strLt_trans hca h1
      rw [this] at h2
      exact absurd h2 (by simp)
  · rfl

instance : IsTotal PRow rowLe := ⟨fun a b => by
  unfold rowLe
  exact strLe_total a.key b.key⟩

instance : IsTrans PRow rowLe := ⟨fun a b c h1 h2 => by
  unfold rowLe at *
  exact strLe_trans h1 h2⟩

/-! ### Pagination facts -/

theorem mem_pageAt_mem_rows {rows : List PRow} {limit : Nat} {c : Option String} {r : PRow}
    (h : r ∈ pageAt rows limit c) : r ∈ rows := by
  unfold pageAt at h
  have h1 := (List.take_sublist _ _).subset h
  rw [List.mem_insertionSort] at h1
  rcases hc : cursorTruthy c with _ | _
  · rw [hc] at h1
    simpa using h1
  · rw [hc] at h1
    simp only [if_true] at h1
    exact (List.mem_filter.mp h1).1

theorem mem_pageAt_key_gt {rows : List PRow} {limit : Nat} {c : Option String} {r : PRow}
    (h : r ∈ pageAt rows limit c) (hc : cursorTruthy c = true) :
    strLt (c.getD "") r.key = true := by
  unfold pageAt at h
  rw [hc] at h
  simp only [if_true] at h
  have h1 := (List.take_sublist _ _).subset h
  rw [List.mem_insertionSort] at h1
  have := (List.mem_filter.mp h1).2
  simpa using this

theorem pageAt_pairwise (rows : List PRow) (limit : Nat) (c : Option String) :
    (pageAt rows limit c).Pairwise rowLe := by
  unfold pageAt
  exact (List.sorted_insertionSort rowLe _).sublist (List.take_sublist _ _)

theorem pairwise_le_getLast {p : List PRow} (hp : p.Pairwise rowLe) {r m : PRow}
    (hr : r ∈ p) (hm : p.getLast? = some m) : strLe r.key m.key = true := by
  induction p with
  | nil => simp at hr
  | cons x rest ih =>
    rcases rest with _ | ⟨y, rest'⟩
    · simp at hr hm
      subst hr; subst hm
      exact strLe_refl _
    · rw [List.getLast?_cons_cons] at hm
      rcases List.mem_cons.mp hr with rfl | hr'
      · have hmm : m ∈ y :: rest' := List.mem_of_mem_getLast? hm
        have := (List.pairwise_cons.mp hp).1 m hmm
        exact this
      · exact ih (List.pairwise_cons.mp hp).2 hr' hm

/-- The shape of every cursor the traversal ever uses: the starting `none`
or the key of some snapshot row. -/
def cursorFromRows (rows : List PRow) : Option String → Prop
  | none => True
  | some k => ∃ r ∈ rows, r.key = k

theorem cursorSeq_fromRows (rows : List PRow) (limit : Nat) :
    ∀ n, cursorFromRows rows (cursorSeq rows limit n)
  | 0 => trivial
  | n + 1 => by
    have ih := cursorSeq_fromRows rows limit n
    simp only [cursorSeq, advanceCursor]
    rcases hl : (pageAt rows limit (cursorSeq rows limit n)).getLast? with _ | r
    · exact ih
    · have hmem : r ∈ pageAt rows limit (cursorSeq rows limit n) :=
        List.mem_of_mem_getLast? hl
      exact ⟨r, mem_pageAt_mem_rows hmem, rfl⟩

/-- Order on traversal cursors: `none` sits below every cursor. -/
def cursorLeOpt : Option String → Option String → Prop
  | none, _ => True
  | some _, none => False
  | some a, some b => strLe a b = true

theorem cursorLeOpt_trans {a b c : Option String} (h1 : cursorLeOpt a b)
    (h2 : cursorLeOpt b c) : cursorLeOpt a c := by
  rcases a with _ | a
  · trivial
  · rcases b with _ | b
    · exact absurd h1 (by simp [cursorLeOpt])
    · rcases c with _ | c
      · exact absurd h2 (by simp [cursorLeOpt])
      · exact strLe_trans h1 h2

theorem cursorTruthy_of_fromRows {rows : List PRow} {k : String}
    (hkeys : ∀ r ∈ rows, r.key ≠ "") (h : cursorFromRows rows (some k)) :
    cursorTruthy (some k) = true := by
  rcases h with ⟨r, hr, rfl⟩
  simp only [cursorTruthy, bne_iff_ne, ne_eq]
  exact hkeys r hr

theorem cursorSeq_step_le {rows : List PRow} (limit : Nat) (n : Nat)
    (hkeys : ∀ r ∈ rows, r.key ≠ "") :
    cursorLeOpt (cursorSeq rows limit n) (cursorSeq rows limit (n + 1)) := by
  simp only [cursorSeq, advanceCursor]
  rcases hl : (pageAt rows limit (cursorSeq rows limit n)).getLast? with _ | r
  · rcases h : cursorSeq rows limit n with _ | k
    · trivial
    · exact strLe_refl k
  · have hmem : r ∈ pageAt rows limit (cursorSeq rows limit n) :=
      List.mem_of_mem_getLast? hl
    rcases h : cursorSeq rows limit n with _ | k
    · trivial
    · have hfrom := cursorSeq_fromRows rows limit n
      rw [h] at hfrom
      have htr := cursorTruthy_of_fromRows hkeys hfrom
      have hgt := mem_pageAt_key_gt (h ▸ hmem) htr
      simp only [Option.getD_some] at hgt
      exact strLe_of_lt hgt

theorem cursorSeq_le_of_le {rows : List PRow} (limit : Nat)
    (hkeys : ∀ r ∈ rows, r.key ≠ "") {i j : Nat} (hij : i ≤ j) :
    cursorLeOpt (cursorSeq rows limit i) (cursorSeq rows limit j) := by
  induction j with
  | zero =>
    have : i = 0 := Nat.le_zero.mp hij
    subst this
    trivial
  | succ j ih =>
    rcases Nat.lt_or_ge i (j + 1) with h | h
    · have hij' : i ≤ j := Nat.lt_succ_iff.mp h
      exact cursorLeOpt_trans (ih hij') (cursorSeq_step_le limit j hkeys)
    · have : i = j + 1 := Nat.le_antisymm hij h
      subst this
      rcases hc : cursorSeq rows limit (j + 1) with _ | k
      · trivial
      · exact strLe_refl k

theorem pageAt_disjoint_of_lt {rows : List PRow} {limit : Nat}
    (hkeys : ∀ r ∈ rows, r.key ≠ "") {i j : Nat} (hij : i < j) {r : PRow}
    (hi : r ∈ pageAt rows limit (cursorSeq rows limit i))
    (hj : r ∈ pageAt rows limit (cursorSeq rows limit j)) : False := by
  have hne : pageAt rows limit (cursorSeq rows limit i) ≠ [] := by
    intro h
    rw [h] at hi
    simp at hi
  rcases Option.isSome_iff_exists.mp (List.getLast?_isSome.mpr hne) with ⟨m, hl⟩
  have hrm : strLe r.key m.key = true :=
    pairwise_le_getLast (pageAt_pairwise rows limit _) hi hl
  have hstep : cursorSeq rows limit (i + 1) = some m.key := by
    simp only [cursorSeq, advanceCursor, hl]
  have hchain := cursorSeq_le_of_le limit hkeys (Nat.succ_le_of_lt hij)
  rw [hstep] at hchain
  rcases hcj : cursorSeq rows limit j with _ | k
  · rw [hcj] at hchain
    exact absurd hchain (by simp [cursorLeOpt])
  · rw [hcj] at hchain
    have hfrom := cursorSeq_fromRows rows limit j
    rw [hcj] at hfrom
    have htr := cursorTruthy_of_fromRows hkeys hfrom
    have hgt := mem_pageAt_key_gt (hcj ▸ hj) htr
    simp only [Option.getD_some] at hgt
    have hle : strLe r.key k = true := strLe_trans hrm hchain
    have : strLt k k = true := strLt_of_lt_of_le hgt hle
    rw [strLt_irrefl] at this
    exact absurd this (by simp)

/-! ### Small helper facts shared by the claim theorems -/

theorem isPrefixOf_head?_eq {as bs s : List Char}
    (h1 : as.isPrefixOf s = true) (h2 : bs.isPrefixOf s = true)
    (ha : as ≠ []) (hb : bs ≠ []) : as.head? = bs.head? := by
  rcases as with _ | ⟨a, as'⟩
  · exact absurd rfl ha
  · rcases bs with _ | ⟨b, bs'⟩
    · exact absurd rfl hb
    · rcases s with _ | ⟨c, cs⟩
      · simp [List.isPrefixOf] at h1
      · simp only [List.isPrefixOf, Bool.and_eq_true, beq_iff_eq] at h1 h2
        simp [h1.1, h2.1]

/-- If `t` starts with `p`, it cannot also start with a `q` whose first
character differs. -/
theorem startsWith_excl {t p q : String} (h1 : strStartsWith t p = true)
    (hne : p.data.head? ≠ q.data.head?) (hp : p.data ≠ []) (hq : q.data ≠ []) :
    strStartsWith t q = false := by
  rcases h : strStartsWith t q with _ | _
  · rfl
  · exact absurd
      (isPrefixOf_head?_eq (by simpa [strStartsWith] using h1)
        (by simpa [strStartsWith] using h) hp hq)
      hne

theorem mem_keys_putAssoc {m : List (String × CellVal)} {k k' : String} {v : CellVal}
    (h : k' ∈ (putAssoc m k v).map Prod.fst) : k' ∈ m.map Prod.fst ∨ k' = k := by
  unfold putAssoc at h
  split at h
  · rw [List.map_map] at h
    rcases List.mem_map.mp h with ⟨p, hp, hpk⟩
    by_cases hpk2 : p.1 = k
    · simp only [Function.comp, hpk2, if_pos] at hpk
      exact Or.inr hpk.symm
    · simp only [Function.comp, hpk2, if_neg, not_false_iff] at hpk
      exact Or.inl (hpk ▸ List.mem_map.mpr ⟨p, hp, rfl⟩)
  · rw [List.map_append] at h
    rcases List.mem_append.mp h with h | h
    · exact Or.inl h
    · simp at h
      exact Or.inr h

theorem mem_keys_putAssoc_self (m : List (String × CellVal)) (k : String) (v : CellVal) :
    k ∈ (putAssoc m k v).map Prod.fst := by
  unfold putAssoc
  by_cases h : (m.any fun p => decide (p.1 = k)) = true
  · rw [if_pos h]
    rcases List.any_eq_true.mp h with ⟨p, hp, hpk⟩
    simp only [decide_eq_true_eq] at hpk
    rw [List.map_map]
    refine List.mem_map.mpr ⟨p, hp, ?_⟩
    simp [Function.comp, hpk]
  · rw [if_neg h, List.map_append]
    simp

theorem mem_keys_putAssoc_mono {m : List (String × CellVal)} {k' : String}
    (k : String) (v : CellVal) (h : k' ∈ m.map Prod.fst) :
    k' ∈ (putAssoc m k v).map Prod.fst := by
  unfold putAssoc
  by_cases hc : (m.any fun p => decide (p.1 = k)) = true
  · rw [if_pos hc, List.map_map]
    rcases List.mem_map.mp h with ⟨p, hp, hpk⟩
    refine List.mem_map.mpr ⟨p, hp, ?_⟩
    by_cases hpk2 : p.1 = k
    · simp only [Function.comp, if_pos hpk2]
      rw [← hpk, hpk2]
    · simp only [Function.comp, if_neg hpk2]
      exact hpk
  · rw [if_neg hc, List.map_append]
    exact List.mem_append.mpr (Or.inl h)

theorem keys_rowFold_subset (f : String → String) :
    ∀ (cols acc : List (String × CellVal)) {k : String},
      k ∈ (cols.foldl (fun m kv => putAssoc m (f kv.1) kv.2) acc).map Prod.fst →
      k ∈ acc.map Prod.fst ∨ k ∈ cols.map (fun kv => f kv.1)
  | [], _, _, h => Or.inl h
  | kv :: cols, acc, k, h => by
    simp only [List.foldl_cons] at h
    rcases keys_rowFold_subset f cols (putAssoc acc (f kv.1) kv.2) h with h1 | h1
    · rcases mem_keys_putAssoc h1 with h2 | h2
      · exact Or.inl h2
      · exact Or.inr (by simp [h2])
    · exact Or.inr (List.mem_cons_of_mem _ h1)

theorem keys_rowFold_complete (f : String → String) :
    ∀ (cols acc : List (String × CellVal)) {k : String},
      k ∈ acc.map Prod.fst ∨ k ∈ cols.map (fun kv => f kv.1) →
      k ∈ (cols.foldl (fun m kv => putAssoc m (f kv.1) kv.2) acc).map Prod.fst
  | [], _, _, h => by
    rcases h with h | h
    · exact h
    · simp at h
  | kv :: cols, acc, k, h => by
    simp only [List.foldl_cons]
    rcases h with h | h
    · exact keys_rowFold_complete f cols _ (Or.inl (mem_keys_putAssoc_mono _ _ h))
    · rcases List.mem_cons.mp h with h2 | h2
      · exact keys_rowFold_complete f cols _
          (Or.inl (h2 ▸ mem_keys_putAssoc_self acc (f kv.1) kv.2))
      · exact keys_rowFold_complete f cols _ (Or.inr h2)

theorem keys_rowToMap (cols : List (String × CellVal)) (k : String) :
    k ∈ (rowToMap cols).map Prod.fst ↔ k ∈ cols.map Prod.fst := by
  constructor
  · intro h
    rcases keys_rowFold_subset (fun s => s) cols [] h with h1 | h1
    · simp at h1
    · simpa using h1
  · intro h
    exact keys_rowFold_complete (fun s => s) cols []
      (Or.inr (by simpa using h))

theorem keys_rowToMapLower (cols : List (String × CellVal)) (k : String) :
    k ∈ (rowToMapLower cols).map Prod.fst ↔
      k ∈ cols.map (fun kv => strToLower kv.1) := by
  constructor
  · intro h
    rcases keys_rowFold_subset strToLower cols [] h with h1 | h1
    · simp at h1
    · exact h1
  · intro h
    exact keys_rowFold_complete strToLower cols [] (Or.inr h)

theorem lookupFile_putFile_self (files : List (String × FileBytes)) (k : String)
    (v : FileBytes) : lookupFile (putFile files k v) k = some v := by
  unfold putFile lookupFile
  by_cases h : (files.any fun p => decide (p.1 = k)) = true
  · rw [if_pos h]
    induction files with
    | nil => simp at h
    | cons a files ih =>
      by_cases ha : a.1 = k
      · simp [List.find?, ha]
      · simp only [List.any_cons, Bool.or_eq_true, decide_eq_true_eq] at h
        rcases h with h | h
        · exact absurd h ha
        · simp only [List.map_cons, if_neg ha, List.find?]
          have hd : decide (a.1 = k) = false := by simpa using ha
          rw [hd]
          exact ih h
  · rw [if_neg h]
    induction files with
    | nil => simp [List.find?]
    | cons a files ih =>
      simp only [List.any_cons, Bool.or_eq_true, decide_eq_true_eq] at h
      push_neg at h
      simp only [List.cons_append, List.find?]
      have hd : decide (a.1 = k) = false := by simpa using h.1
      rw [hd]
      exact ih (by simpa using h.2)

/-! ## Claim theorems -/

/-- C4: calling `executeQuery` or `executeStatement` with no open connection
(`database == null`, i.e. before any successful `initDatabase`) fails with
the specific no-active-connection error — not a generic or undefined one —
for every SQL string and parameter list, and never reaches the engine (the
error is produced before any engine operation). -/
theorem C4_no_connection (σ : Type) (eng : Engine σ) (sql : String)
    (params : Option (List SpatialiteParam)) :
    executeQuery eng none sql params = .error .noActiveConnection ∧
    executeStatement eng none sql params = .error .noActiveConnection :=
  ⟨rfl, rfl⟩

def unitEngine : Engine Unit where
  execSql := fun s _ _ => s
  changes := fun _ => 0
  rawQuery := fun _ _ _ => []

/-- C1 counterexample: `PRAGMA user_version=5` is classified on the
statement side (`pragmaSet`), yet `executeQuery` does **not** reject it —
it runs it and returns a success result, because `executeQuery` only
rejects `modify`-classified text.  This falsifies the claim that
`executeQuery` rejects every statement-classified input. -/
theorem C1_counterexample :
    getStatementType "PRAGMA user_version=5" = StatementType.pragmaSet ∧
    executeQuery unitEngine (some ()) "PRAGMA user_version=5" none =
      .ok { success := true, rowCount := 0, data := [] } := by
  exact ⟨by decide, rfl⟩

/-- C1 (amended): the prefix classifier sends trimmed, upper-cased text
starting with SELECT/WITH, or PRAGMA without `=`, to `query`; INSERT,
UPDATE or DELETE to `modify`; PRAGMA with `=` to `pragmaSet`.
`executeQuery` rejects exactly the `modify`-classified inputs (so PRAGMA
setters pass through it), and `executeStatement` rejects exactly the
`query`-classified inputs. -/
theorem C1_statement_routing :
    (∀ sql : String,
       (strStartsWith (strToUpper (strTrim sql)) "SELECT" = true ∨
        strStartsWith (strToUpper (strTrim sql)) "WITH" = true) →
       getStatementType sql = .query) ∧
    (∀ sql : String,
       strStartsWith (strToUpper (strTrim sql)) "PRAGMA" = true →
       strContainsChar (strToUpper (strTrim sql)) '=' = false →
       getStatementType sql = .query) ∧
    (∀ sql : String,
       (strStartsWith (strToUpper (strTrim sql)) "INSERT" = true ∨
        strStartsWith (strToUpper (strTrim sql)) "UPDATE" = true ∨
        strStartsWith (strToUpper (strTrim sql)) "DELETE" = true) →
       getStatementType sql = .modify) ∧
    (∀ sql : String,
       strStartsWith (strToUpper (strTrim sql)) "PRAGMA" = true →
       strContainsChar (strToUpper (strTrim sql)) '=' = true →
       getStatementType sql = .pragmaSet) ∧
    (∀ (σ : Type) (eng : Engine σ) (db : σ) (sql : String)
       (params : Option (List SpatialiteParam)),
       (getStatementType sql = .modify →
          executeQuery eng (some db) sql params = .error .modifyViaExecuteQuery) ∧
       (getStatementType sql ≠ .modify →
          (executeQuery eng (some db) sql params).isOk = true) ∧
       (getStatementType sql = .query →
          executeStatement eng (some db) sql params = .error .queryViaExecuteStatement) ∧
       (getStatementType sql ≠ .query →
          (executeStatement eng (some db) sql params).isOk = true)) := by
  refine ⟨?_, ?_, ?_, ?_, ?_⟩
  · intro sql h
    rcases h with h | h <;> simp [getStatementType, h]
  · intro sql hP hEq
    have h1 := startsWith_excl hP (by decide) (by decide) (by decide)
      (q := "SELECT")
    have h2 := startsWith_excl hP (by decide) (by decide) (by decide)
      (q := "WITH")
    have h3 := startsWith_excl hP (by decide) (by decide) (by decide)
      (q := "INSERT")
    have h4 := startsWith_excl hP (by decide) (by decide) (by decide)
      (q := "UPDATE")
    have h5 := startsWith_excl hP (by decide) (by decide) (by decide)
      (q := "DELETE")
    simp [getStatementType, h1, h2, h3, h4, h5, hP, hEq]
  · intro sql h
    rcases h with h | h | h
    all_goals {
      first
      | (have h1 := startsWith_excl h (by decide) (by decide) (by decide)
            (q := "SELECT")
         have h2 := startsWith_excl h (by decide) (by decide) (by decide)
            (q := "WITH")
         simp [getStatementType, h1, h2, h])
    }
  · intro sql hP hEq
    have h1 := startsWith_excl hP (by decide) (by decide) (by decide)
      (q := "SELECT")
    have h2 := startsWith_excl hP (by decide) (by decide) (by decide)
      (q := "WITH")
    have h3 := startsWith_excl hP (by decide) (by decide) (by decide)
      (q := "INSERT")
    have h4 := startsWith_excl hP (by decide) (by decide) (by decide)
      (q := "UPDATE")
    have h5 := startsWith_excl hP (by decide) (by decide) (by decide)
      (q := "DELETE")
    simp [getStatementType, h1, h2, h3, h4, h5, hP, hEq]
  · intro σ eng db sql params
    refine ⟨?_, ?_, ?_, ?_⟩
    · intro h
      simp [executeQuery, h]
    · intro h
      simp only [executeQuery, if_neg h]
      rfl
    · intro h
      simp [executeStatement, h]
    · intro h
      simp only [executeStatement, if_neg h]
      by_cases hb : bindsParams sql params = true
      · rw [if_pos hb]
        by_cases hm : getStatementType sql = .modify
        · rw [if_pos hm]; rfl
        · rw [if_neg hm]; rfl
      · rw [if_neg hb]; rfl

/-- C1 witness: each routing clause at a concrete statement. -/
theorem C1_statement_routing_witness :
    getStatementType "  select * from t" = StatementType.query ∧
    getStatementType "PRAGMA user_version" = StatementType.query ∧
    getStatementType "delete from t" = StatementType.modify ∧
    getStatementType "PRAGMA journal_mode=WAL" = StatementType.pragmaSet ∧
    executeQuery unitEngine (some ()) "insert into t values (1)" none =
      .error .modifyViaExecuteQuery ∧
    executeStatement unitEngine (some ()) "select 1" none =
      .error .queryViaExecuteStatement ∧
    (executeQuery unitEngine (some ()) "select 1" none).isOk = true ∧
    (executeStatement unitEngine (some ()) "insert into t values (1)" none).isOk = true :=
  ⟨C1_statement_routing.1 _ (Or.inl (by decide)),
   C1_statement_routing.2.1 _ (by decide) (by decide),
   C1_statement_routing.2.2.1 _ (Or.inr (Or.inr (by decide))),
   C1_statement_routing.2.2.2.1 _ (by decide) (by decide),
   (C1_statement_routing.2.2.2.2 Unit unitEngine () _ none).1 (by decide),
   (C1_statement_routing.2.2.2.2 Unit unitEngine () _ none).2.2.1 (by decide),
   (C1_statement_routing.2.2.2.2 Unit unitEngine () _ none).2.1 (by decide),
   (C1_statement_routing.2.2.2.2 Unit unitEngine () _ none).2.2.2 (by decide)⟩

/-- C2 counterexample: the main adapter's `cursorToList` keeps the column
name exactly as the cursor reports it — a column named `ID` yields the key
`ID`, not `id` — so the keys of `executeQuery` rows are **not** lower-cased
there.  (Only the older module lower-cases, shown alongside.) -/
theorem C2_counterexample :
    cursorToList [[("ID", CellVal.intV 1)]] = [[("ID", CellVal.intV 1)]] ∧
    executeQueryLower [[("ID", CellVal.intV 1)]] = [[("id", CellVal.intV 1)]] ∧
    ("ID" : String) ≠ "id" := by
  refine ⟨by decide, by decide, by decide⟩

/-- C2 (amended): in the main adapter (`expo-spatialite`), each returned
row's key set is exactly the set of column names as reported by the
cursor, case preserved; only the older `expo-spatialite-module` variant
lower-cases the keys (its key set is exactly the lower-cased column
names). -/
theorem C2_column_keys :
    (∀ (cols : List (String × CellVal)) (k : String),
       k ∈ (rowToMap cols).map Prod.fst ↔ k ∈ cols.map Prod.fst) ∧
    (∀ (cols : List (String × CellVal)) (k : String),
       k ∈ (rowToMapLower cols).map Prod.fst ↔
         k ∈ cols.map (fun kv => strToLower kv.1)) ∧
    (∀ rows : List (List (String × CellVal)), cursorToList rows = rows.map rowToMap) ∧
    (∀ rows : List (List (String × CellVal)),
       executeQueryLower rows = rows.map rowToMapLower) :=
  ⟨keys_rowToMap, keys_rowToMapLower, fun _ => rfl, fun _ => rfl⟩

def countEngine : Engine Nat where
  execSql := fun s _ _ => s + 1
  changes := fun _ => 1
  rawQuery := fun _ _ _ => []

/-- C3 counterexample: a parameterless `DELETE` is accepted on an open
connection and modifies data (the engine reports 1 changed row via its
`changes` introspection after execution), yet `executeStatement` returns
`rowsAffected = -1`: the no-binding branch never runs `SELECT changes()`.
This falsifies the claim that the returned `rowsAffected` always equals
the engine's reported change count. -/
theorem C3_counterexample :
    getStatementType "DELETE FROM notes" = StatementType.modify ∧
    executeStatement countEngine (some 0) "DELETE FROM notes" none =
      .ok { state := 1, rowsAffected := -1,
            trace := [.beginTx, .execSql "DELETE FROM notes" none,
                      .setTxSuccessful, .endTx] } ∧
    countEngine.changes 1 = 1 ∧ (-1 : Int) ≠ 1 := by
  exact ⟨by decide, rfl, rfl, by decide⟩

/-- C3 (amended): an accepted write statement always runs inside the
implicit begin/commit bracket, and `rowsAffected` equals the engine's
`changes` introspection after execution exactly when a non-empty parameter
list is bound to a statement with placeholders; otherwise the adapter
returns `-1` for modify statements without consulting `changes`. -/
theorem C3_rows_affected (σ : Type) (eng : Engine σ) (db : σ) (stmt : String)
    (params : Option (List SpatialiteParam))
    (hm : getStatementType stmt = .modify) :
    (bindsParams stmt params = true →
      executeStatement eng (some db) stmt params =
        .ok { state := eng.execSql db stmt (some (convertParamsToArray (params.getD []))),
              rowsAffected :=
                (eng.changes (eng.execSql db stmt
                  (some (convertParamsToArray (params.getD [])))) : Int),
              trace := [.beginTx,
                        .execSql stmt (some (convertParamsToArray (params.getD []))),
                        .queryChanges, .setTxSuccessful, .endTx] }) ∧
    (bindsParams stmt params = false →
      executeStatement eng (some db) stmt params =
        .ok { state := eng.execSql db stmt none, rowsAffected := -1,
              trace := [.beginTx, .execSql stmt none, .setTxSuccessful, .endTx] }) := by
  have hq : getStatementType stmt ≠ .query := by
    rw [hm]; intro hcon; exact absurd hcon (by decide)
  constructor
  · intro hb
    simp [executeStatement, if_neg hq, hb, hm]
  · intro hb
    simp [executeStatement, if_neg hq, hb, hm]

/-- C3 witness: a parameterized DELETE on the counting engine reports the
engine's change count (1) and the begin/commit trace. -/
theorem C3_rows_affected_witness :
    executeStatement countEngine (some 0) "DELETE FROM notes WHERE id = ?"
        (some [SpatialiteParam.numP 5]) =
      .ok { state := 1, rowsAffected := 1,
            trace := [.beginTx,
                      .execSql "DELETE FROM notes WHERE id = ?" (some [some "5"]),
                      .queryChanges, .setTxSuccessful, .endTx] } := by
  have h := (C3_rows_affected Nat countEngine 0 "DELETE FROM notes WHERE id = ?"
    (some [SpatialiteParam.numP 5]) (by decide)).1 (by decide)
  exact h

theorem head?_dropWhile_ne (p : Char → Bool) :
    ∀ l : List Char, ∀ {c : Char}, (l.dropWhile p).head? = some c → p c = false
  | [], _, h => by simp [List.dropWhile] at h
  | a :: l, c, h => by
    simp only [List.dropWhile] at h
    rcases hp : p a with _ | _
    · rw [hp] at h
      simp only [List.head?] at h
      have hac : a = c := Option.some_inj.mp h
      rw [← hac]
      exact hp
    · rw [hp] at h
      exact head?_dropWhile_ne p l h

theorem removeTrailingSlash_append_slash (d : String) :
    removeTrailingSlash (d ++ "/") = removeTrailingSlash d := by
  unfold removeTrailingSlash
  have h1 : (d ++ "/").data = d.data ++ ['/'] := rfl
  rw [h1, List.reverse_append]
  simp [List.dropWhile]

/-- C5 counterexample: the `expo-spatialite/src/index.ts` variant of
`createDatabasePath` neither returns the `:memory:` sentinel unchanged nor
avoids doubled slashes: with the documents directory `file:///docs/` it
maps `:memory:` to a real file path, and a relative directory ending in
`/` produces `//` at the join point. -/
theorem C5_counterexample :
    createDatabasePathIndex "file:///docs/" ":memory:" none =
      .ok "/docs/Spatialite/:memory:" ∧
    ("/docs/Spatialite/:memory:" : String) ≠ ":memory:" ∧
    createDatabasePathIndex "file:///docs/" "db.db" (some "data/") =
      .ok "/docs/data//db.db" ∧
    ("/docs/data//db.db" : String) = "/docs/data" ++ "//" ++ "db.db" := by
  refine ⟨rfl, by decide, rfl, by decide⟩

/-- C5 (amended): the `query-wards.ts` `createDatabasePath` is the variant
with the claimed contract: it is pure and deterministic, returns the
`:memory:` sentinel unchanged, and otherwise joins the resolved directory
(a caller-supplied directory **replaces** the default base rather than
being appended under it) to the name with exactly one slash at the join
point — the directory's trailing slashes and the name's leading slashes
are stripped, so the result is insensitive to a trailing `/` on the
directory.  The `index.ts` variant does not satisfy this contract (see the
counterexample). -/
theorem C5_create_database_path :
    (∀ (dir : Option String) (dd : String),
       createDatabasePathQW ":memory:" dir dd = ":memory:") ∧
    (∀ (name : String) (dir : Option String) (dd : String),
       createDatabasePathQW name dir dd = createDatabasePathQW name dir dd) ∧
    (∀ (name : String) (dir : Option String) (dd : String), name ≠ ":memory:" →
       createDatabasePathQW name dir dd =
         removeTrailingSlash (resolveDbDirectory dir dd) ++ "/"
           ++ removeLeadingSlash name) ∧
    (∀ s : String, decide ((removeTrailingSlash s).data.getLast? = some '/') = false) ∧
    (∀ s : String, decide ((removeLeadingSlash s).data.head? = some '/') = false) ∧
    (∀ (name d dd : String),
       createDatabasePathQW name (some (d ++ "/")) dd =
         createDatabasePathQW name (some d) dd) := by
  refine ⟨?_, ?_, ?_, ?_, ?_, ?_⟩
  · intro dir dd
    simp [createDatabasePathQW]
  · intro name dir dd
    rfl
  · intro name dir dd h
    simp [createDatabasePathQW, h]
  · intro s
    refine decide_eq_false ?_
    intro h
    unfold removeTrailingSlash at h
    rw [List.getLast?_reverse] at h
    have := head?_dropWhile_ne (· = '/') s.data.reverse h
    simp at this
  · intro s
    refine decide_eq_false ?_
    intro h
    unfold removeLeadingSlash at h
    have := head?_dropWhile_ne (· = '/') s.data h
    simp at this
  · intro name d dd
    unfold createDatabasePathQW
    by_cases h : name = ":memory:"
    · rw [if_pos h, if_pos h]
    · rw [if_neg h, if_neg h]
      simp only [resolveDbDirectory, Option.getD_some]
      rw [removeTrailingSlash_append_slash]

/-- C5 witness: the QW contract at concrete arguments, including a
directory with a trailing slash. -/
theorem C5_create_database_path_witness :
    createDatabasePathQW ":memory:" (some "/data/") "/default" = ":memory:" ∧
    createDatabasePathQW "app.db" (some "/data/") "/default" =
      removeTrailingSlash (resolveDbDirectory (some "/data/") "/default") ++ "/"
        ++ removeLeadingSlash "app.db" ∧
    createDatabasePathQW "app.db" (some ("/data" ++ "/")) "/default" =
      createDatabasePathQW "app.db" (some "/data") "/default" :=
  ⟨C5_create_database_path.1 (some "/data/") "/default",
   C5_create_database_path.2.2.1 "app.db" (some "/data/") "/default" (by decide),
   C5_create_database_path.2.2.2.2.2 "app.db" "/data" "/default"⟩

theorem importAsset_noop (fs : FsState) (fd dp ap : String)
    (h : (lookupFile fs.files (resolveDbFilePath fd dp)).isSome = true) :
    importAssetDatabaseAsync fs fd dp ap false =
      .ok (fs, { success := true, message := "Database already exists, skipping import" }) := by
  unfold importAssetDatabaseAsync
  rw [if_pos ⟨h, by simp⟩]

theorem importAsset_ok_cases (fs : FsState) (fd dp ap : String) (fs1 : FsState)
    (r1 : ImportResult)
    (h : importAssetDatabaseAsync fs fd dp ap false = .ok (fs1, r1)) :
    (lookupFile fs1.files (resolveDbFilePath fd dp)).isSome = true ∧ r1.success = true := by
  unfold importAssetDatabaseAsync at h
  by_cases hc : (lookupFile fs.files (resolveDbFilePath fd dp)).isSome = true
  · rw [if_pos ⟨hc, by simp⟩] at h
    simp only [Except.ok.injEq, Prod.mk.injEq] at h
    rcases h with ⟨h1, h2⟩
    subst h1
    subst h2
    exact ⟨hc, rfl⟩
  · rw [if_neg (fun hcon => hc hcon.1)] at h
    rcases hsrc : lookupFile fs.files (resolveSourcePath ap) with _ | bytes
    · rw [hsrc] at h
      rcases hass : lookupFile fs.assets (resolveSourcePath ap) with _ | bytes
      · rw [hass] at h
        simp at h
      · rw [hass] at h
        simp only [Except.ok.injEq, Prod.mk.injEq] at h
        rcases h with ⟨h1, h2⟩
        subst h1
        subst h2
        constructor
        · rw [lookupFile_putFile_self]
          rfl
        · rfl
    · rw [hsrc] at h
      simp only [Except.ok.injEq, Prod.mk.injEq] at h
      rcases h with ⟨h1, h2⟩
      subst h1
      subst h2
      constructor
      · rw [lookupFile_putFile_self]
        rfl
      · rfl

/-- C6: asset import is idempotent under `forceOverwrite=false`: an
existing destination makes the import a successful no-op with the
filesystem (hence the destination's bytes) unchanged, and any successful
run followed by a second import of the same asset reports success both
times and leaves the filesystem exactly as after the first. -/
theorem C6_import_idempotent :
    (∀ (fs : FsState) (fd dp ap : String),
       (lookupFile fs.files (resolveDbFilePath fd dp)).isSome = true →
       importAssetDatabaseAsync fs fd dp ap false =
         .ok (fs, { success := true, message := "Database already exists, skipping import" })) ∧
    (∀ (fs : FsState) (fd dp ap : String) (fs1 : FsState) (r1 : ImportResult),
       importAssetDatabaseAsync fs fd dp ap false = .ok (fs1, r1) →
       r1.success = true ∧
       importAssetDatabaseAsync fs1 fd dp ap false =
         .ok (fs1, { success := true, message := "Database already exists, skipping import" })) :=
  ⟨importAsset_noop,
   fun fs fd dp ap fs1 r1 h =>
     ⟨(importAsset_ok_cases fs fd dp ap fs1 r1 h).2,
      importAsset_noop fs1 fd dp ap (importAsset_ok_cases fs fd dp ap fs1 r1 h).1⟩⟩

/-- C6 witness: importing the bundled `wards.db` twice into an empty
filesystem: the first copy writes the bytes, the second is a successful
no-op on the same state. -/
theorem C6_import_idempotent_witness :
    importAssetDatabaseAsync
        { files := [], assets := [("assets/wards.db", [7, 7])] }
        "/data" "wards.db" "wards.db" false =
      .ok ({ files := [("/data/Spatialite/wards.db", [7, 7])],
             assets := [("assets/wards.db", [7, 7])] },
           { success := true, message := "Database imported successfully" }) ∧
    importAssetDatabaseAsync
        { files := [("/data/Spatialite/wards.db", [7, 7])],
          assets := [("assets/wards.db", [7, 7])] }
        "/data" "wards.db" "wards.db" false =
      .ok ({ files := [("/data/Spatialite/wards.db", [7, 7])],
             assets := [("assets/wards.db", [7, 7])] },
           { success := true, message := "Database already exists, skipping import" }) :=
  ⟨rfl,
   (C6_import_idempotent.2
      { files := [], assets := [("assets/wards.db", [7, 7])] }
      "/data" "wards.db" "wards.db"
      { files := [("/data/Spatialite/wards.db", [7, 7])],
        assets := [("assets/wards.db", [7, 7])] }
      { success := true, message := "Database imported successfully" }
      rfl).2⟩

/-- C7 counterexample: on an existing database file that lacks the spatial
metadata catalog, `initDatabase` does **not** trigger metadata
initialization — its guard is file newness, not a check of the catalog
table — whereas the spec's described catalog-table check
(`initDatabaseMetaSpec`) would initialize there.  The claim's stated
mechanism for `initDatabase` is therefore false. -/
theorem C7_counterexample :
    (initDatabaseMeta { fileExists := true, hasCatalog := false }).initRan = false ∧
    (initDatabaseMetaSpec { fileExists := true, hasCatalog := false }).initRan = true ∧
    initDatabaseMeta { fileExists := true, hasCatalog := false } ≠
      initDatabaseMetaSpec { fileExists := true, hasCatalog := false } := by
  refine ⟨by decide, by decide, by decide⟩

/-- C7 (amended): spatial-metadata setup is idempotent at open time in both
modules and always succeeds (no "already exists" failure), but only the
older module's `connect` decides by probing the metadata catalog table
(`initRan = !hasCatalog`); the newer module's `initDatabase` decides by
file newness (`initRan = !fileExists`) and swallows any initialization
error.  In both, opening a database that already has the catalog (an
existing spatial file) runs no re-initialization and succeeds. -/
theorem C7_metadata_idempotent :
    (∀ s : SpatialFileState,
       (connectSpatialInit s).success = true ∧
       (connectSpatialInit s).initRan = !s.hasCatalog ∧
       (connectSpatialInit s).state.hasCatalog = true) ∧
    (∀ s : SpatialFileState,
       (initDatabaseMeta s).success = true ∧
       (initDatabaseMeta s).initRan = !s.fileExists ∧
       (s.fileExists = true → (initDatabaseMeta s).state.hasCatalog = s.hasCatalog)) := by
  constructor
  · intro s
    rcases s with ⟨fe, hc⟩
    rcases fe <;> rcases hc <;> exact ⟨by decide, by decide, by decide⟩
  · intro s
    rcases s with ⟨fe, hc⟩
    rcases fe <;> rcases hc <;>
      exact ⟨by decide, by decide, by intro hfe; revert hfe; decide⟩

/-- C7 witness: opening an existing database that already has the metadata
catalog succeeds in both modules with no re-initialization. -/
theorem C7_metadata_idempotent_witness :
    (connectSpatialInit { fileExists := true, hasCatalog := true }).success = true ∧
    (connectSpatialInit { fileExists := true, hasCatalog := true }).initRan = false ∧
    (initDatabaseMeta { fileExists := true, hasCatalog := true }).success = true ∧
    (initDatabaseMeta { fileExists := true, hasCatalog := true }).initRan = false ∧
    (initDatabaseMeta { fileExists := true, hasCatalog := true }).state.hasCatalog = true :=
  ⟨(C7_metadata_idempotent.1 { fileExists := true, hasCatalog := true }).1,
   (C7_metadata_idempotent.1 { fileExists := true, hasCatalog := true }).2.1,
   (C7_metadata_idempotent.2 { fileExists := true, hasCatalog := true }).1,
   (C7_metadata_idempotent.2 { fileExists := true, hasCatalog := true }).2.1,
   (C7_metadata_idempotent.2 { fileExists := true, hasCatalog := true }).2.2 rfl⟩

/-- C9: the claimed BEGIN-callback-COMMIT/ROLLBACK path does not exist in
the program.  `BEGIN` is classified `other` and accepted by the native
`executeStatement`, whose bracket (`beginTransaction()` before `execSQL`)
puts the connection inside an open transaction — so `execSQL("BEGIN")`
fails with the engine's nested-transaction error, the bracket's `finally`
rolls back, and `transaction(fn)` rethrows that error before ever running
the callback: the connection data is untouched and no `COMMIT` or
`ROLLBACK` is reached. -/
theorem C9_transaction_begin_fails (σ E T : Type) (applyData : σ → String → σ)
    (cb : TxCallback σ E T) (c : TxConn σ) (hc : c.inTransaction = false)
    (eng : Engine σ) (db : σ) :
    getStatementType "BEGIN" = StatementType.other ∧
    executeStatement eng (some db) "BEGIN" none =
      .ok { state := eng.execSql db "BEGIN" none, rowsAffected := 0,
            trace := [.beginTx, .execSql "BEGIN" none, .setTxSuccessful, .endTx] } ∧
    executeStatementTx applyData c "BEGIN" =
      ({ data := c.data, inTransaction := false, savepoint := none },
       some "cannot start a transaction within a transaction") ∧
    transaction applyData cb c =
      ({ data := c.data, inTransaction := false, savepoint := none },
       .error (.engineError "cannot start a transaction within a transaction")) := by
  have h1 : executeStatementTx applyData c "BEGIN" =
      ({ data := c.data, inTransaction := false, savepoint := none },
       some "cannot start a transaction within a transaction") := by
    simp [executeStatementTx, beginTransactionTx, hc, execSqlTx, endTransactionTx]
  refine ⟨by decide, rfl, h1, ?_⟩
  rw [transaction, h1]

/-- C9 witness: a concrete connection in autocommit with a resolving
callback — the transaction still fails at `BEGIN` with the
nested-transaction error and the data is left untouched. -/
theorem C9_transaction_begin_fails_witness :
    executeStatementTx (σ := Nat) (fun d _ => d + 1)
        { data := 5, inTransaction := false, savepoint := none } "BEGIN" =
      ({ data := 5, inTransaction := false, savepoint := none },
       some "cannot start a transaction within a transaction") ∧
    transaction (σ := Nat) (E := String) (T := Nat) (fun d _ => d + 1)
        { steps := [fun n => n + 1], outcome := .ok 7 }
        { data := 5, inTransaction := false, savepoint := none } =
      ({ data := 5, inTransaction := false, savepoint := none },
       .error (.engineError "cannot start a transaction within a transaction")) :=
  ⟨(C9_transaction_begin_fails Nat String Nat (fun d _ => d + 1)
      { steps := [fun n => n + 1], outcome := .ok 7 }
      { data := 5, inTransaction := false, savepoint := none } rfl
      countEngine 0).2.2.1,
   (C9_transaction_begin_fails Nat String Nat (fun d _ => d + 1)
      { steps := [fun n => n + 1], outcome := .ok 7 }
      { data := 5, inTransaction := false, savepoint := none } rfl
      countEngine 0).2.2.2⟩

/-- C10: every non-null parameter is converted to a string before binding
(booleans to "1"/"0", numbers to their decimal string, strings unchanged)
and only null stays null; when `executeQuery` binds a non-empty parameter
list to a statement with placeholders, the engine receives exactly this
all-text array from `convertParamsToArray`. -/
theorem C10_param_marshaling :
    (∀ p : SpatialiteParam, paramToString p = none ↔ p = .nullP) ∧
    (paramToString (.boolP true) = some "1" ∧ paramToString (.boolP false) = some "0") ∧
    (∀ i : Int, paramToString (.numP i) = some (toString i)) ∧
    (∀ s : String, paramToString (.textP s) = some s) ∧
    (∀ ps : List SpatialiteParam, convertParamsToArray ps = ps.map paramToString) ∧
    (∀ (σ : Type) (eng : Engine σ) (db : σ) (sql : String) (ps : List SpatialiteParam),
       bindsParams sql (some ps) = true → getStatementType sql ≠ .modify →
       executeQuery eng (some db) sql (some ps) =
         .ok { success := true,
               rowCount := (cursorToList
                 (eng.rawQuery db sql (some (convertParamsToArray ps)))).length,
               data := cursorToList
                 (eng.rawQuery db sql (some (convertParamsToArray ps))) }) := by
  refine ⟨?_, ⟨rfl, rfl⟩, fun _ => rfl, fun _ => rfl, fun _ => rfl, ?_⟩
  · intro p
    cases p <;> simp [paramToString]
  · intro σ eng db sql ps hb hm
    simp [executeQuery, if_neg hm, hb]

/-- C10 witness: a null, a boolean, a number and a text parameter bound by
a query with a placeholder. -/
theorem C10_param_marshaling_witness :
    paramToString .nullP = none ∧
    paramToString (.boolP true) = some "1" ∧
    paramToString (.numP 42) = some (toString (42 : Int)) ∧
    executeQuery unitEngine (some ()) "SELECT * FROM t WHERE id = ?"
        (some [SpatialiteParam.numP 42]) =
      .ok { success := true, rowCount := 0, data := [] } :=
  ⟨(C10_param_marshaling.1 .nullP).mpr rfl,
   C10_param_marshaling.2.1.1,
   C10_param_marshaling.2.2.1 42,
   by
     have h := C10_param_marshaling.2.2.2.2.2 Unit unitEngine ()
       "SELECT * FROM t WHERE id = ?" [SpatialiteParam.numP 42]
       (by decide) (by decide)
     exact h⟩

/-- C8 counterexample: `findPaginated` guards the `WHERE` clause by JS
truthiness, so a **supplied** empty-string cursor is treated as absent:
the issued query drops the strict-cursor `WHERE` clause.  Consequently, on
the snapshot `[{key := "", rowid := 0}, {key := "a", rowid := 1}]` (distinct
cursor-field values) with limit 1, advancing the cursor to the last
returned row's key ("") makes the second consecutive call return the very
same row again — the claimed no-repeat property fails. -/
theorem C8_counterexample :
    (findPaginatedSql "users" "created_at" (some "") 20).1 =
      "SELECT * FROM users ORDER BY created_at ASC LIMIT ?" ∧
    pageAt [⟨"", 0⟩, ⟨"a", 1⟩] 1 (cursorSeq [⟨"", 0⟩, ⟨"a", 1⟩] 1 0) = [⟨"", 0⟩] ∧
    cursorSeq [⟨"", 0⟩, ⟨"a", 1⟩] 1 1 = some "" ∧
    pageAt [⟨"", 0⟩, ⟨"a", 1⟩] 1 (cursorSeq [⟨"", 0⟩, ⟨"a", 1⟩] 1 1) = [⟨"", 0⟩] := by
  refine ⟨by decide, by decide, by decide, by decide⟩

/-- C8 (amended): for a **non-empty** cursor, `findPaginated` issues exactly
`SELECT * FROM t WHERE field > ? ORDER BY field ASC LIMIT ?` with the
cursor and limit bound positionally (and omits the `WHERE` clause exactly
when no truthy cursor is given); and on a fixed snapshot with pairwise
distinct, non-empty cursor-field values, advancing the cursor to the last
returned row's cursor-field value on each consecutive call never returns
the same row twice. -/
theorem C8_find_paginated :
    (∀ (t f c : String) (lim : Int), c ≠ "" →
       findPaginatedSql t f (some c) lim =
         ("SELECT * FROM " ++ t ++ " WHERE " ++ f ++ " > ?" ++ " ORDER BY " ++ f
            ++ " ASC LIMIT ?",
          [SpatialiteParam.textP c, SpatialiteParam.numP lim])) ∧
    (∀ (t f : String) (lim : Int),
       findPaginatedSql t f none lim =
         ("SELECT * FROM " ++ t ++ " ORDER BY " ++ f ++ " ASC LIMIT ?",
          [SpatialiteParam.numP lim])) ∧
    (∀ (rows : List PRow) (lim : Nat),
       (∀ r ∈ rows, r.key ≠ "") →
       rows.Pairwise (fun a b => a.key ≠ b.key) →
       ∀ i j : Nat, i < j → ∀ r : PRow,
         ¬(r ∈ pageAt rows lim (cursorSeq rows lim i) ∧
           r ∈ pageAt rows lim (cursorSeq rows lim j))) := by
  refine ⟨?_, ?_, ?_⟩
  · intro t f c lim hc
    simp only [findPaginatedSql, cursorTruthy]
    rw [if_pos (bne_iff_ne.mpr hc)]
    rfl
  · intro t f lim
    rfl
  · intro rows lim hkeys _ i j hij r hmem
    exact pageAt_disjoint_of_lt hkeys hij hmem.1 hmem.2

/-- C8 witness: the emitted SQL at concrete arguments, and disjointness of
the first two pages over a concrete snapshot. -/
theorem C8_find_paginated_witness :
    findPaginatedSql "notes" "created_at" (some "2024-01-01") 20 =
      ("SELECT * FROM " ++ "notes" ++ " WHERE " ++ "created_at" ++ " > ?"
         ++ " ORDER BY " ++ "created_at" ++ " ASC LIMIT ?",
       [SpatialiteParam.textP "2024-01-01", SpatialiteParam.numP 20]) ∧
    findPaginatedSql "notes" "created_at" none 20 =
      ("SELECT * FROM " ++ "notes" ++ " ORDER BY " ++ "created_at" ++ " ASC LIMIT ?",
       [SpatialiteParam.numP 20]) ∧
    ¬((⟨"a", 0⟩ : PRow) ∈ pageAt [⟨"a", 0⟩, ⟨"b", 1⟩] 1 (cursorSeq [⟨"a", 0⟩, ⟨"b", 1⟩] 1 0) ∧
      (⟨"a", 0⟩ : PRow) ∈ pageAt [⟨"a", 0⟩, ⟨"b", 1⟩] 1 (cursorSeq [⟨"a", 0⟩, ⟨"b", 1⟩] 1 1)) :=
  ⟨C8_find_paginated.1 "notes" "created_at" "2024-01-01" 20 (by decide),
   C8_find_paginated.2.1 "notes" "created_at" 20,
   C8_find_paginated.2.2 [⟨"a", 0⟩, ⟨"b", 1⟩] 1 (by decide) (by decide) 0 1
     (by decide) ⟨"a", 0⟩⟩
